import Mathlib

/-!
Shallow embedding of the Hybrid-App Record Coordination Core.

The definitions below are translated from the repository source:
the Express backend route handlers in backend/app.js (create, update
and delete of requisitions, and the socket presence registry with its
disconnect cleanup), the client-side toggleWorking logic in
frontend/src/components/Table.jsx, and the mail-driven status update
helper checkEmails. Database state is a list of requisition rows;
each handler returns its synchronous response together with the
resulting table state and the list of socket events it emitted.
-/

namespace HybridApp

/-- JSON-like values carried in API request bodies and written into
requisition columns: text, integers, text arrays (assigned_recruiters)
and recruiter-to-timestamp maps (working_times). -/
inductive JsValue where
  | str (s : String)
  | num (n : Int)
  | arr (xs : List String)
  | obj (m : List (String × Nat))
  deriving DecidableEq

/-- One row of the requisitions table, per the CREATE TABLE statement
in backend/app.js. The createdat column is the timestamp the code
refreshes with NOW() on every update. -/
structure Requisition where
  requirementid : String
  title : String
  client : String
  slots : Int
  status : String
  assigned_recruiters : List String
  working_times : List (String × Nat)
  createdat : Nat
  deriving DecidableEq

/-- Error taxonomy of the route handlers: InvalidId and DuplicateId
from the create route, NotFound from update and delete, Locked from
the frozen-field check in the update route, SqlError for a database
error surfaced as a 500 response. -/
inductive ApiError where
  | InvalidId
  | DuplicateId
  | NotFound
  | Locked
  | SqlError
  deriving DecidableEq

/-- Socket events emitted by the backend. An editing_status event
carries the record id, the focused column, the editing user (null on
clear) and the isEditing flag. -/
inductive Event where
  | requisition_created (r : Requisition)
  | requisitions_updated (r : Requisition)
  | requisition_deleted (id : String)
  | editing_status (requirementid : String) (fld : Option String)
      (user : Option String) (isEditing : Bool)
  deriving DecidableEq

/-- Decidable equality for handler responses. -/
instance {ε α : Type} [DecidableEq ε] [DecidableEq α] : DecidableEq (Except ε α) := fun a b =>
  match a, b with
  | .error x, .error y =>
    if h : x = y then .isTrue (by rw [h]) else .isFalse (by simp [h])
  | .ok x, .ok y =>
    if h : x = y then .isTrue (by rw [h]) else .isFalse (by simp [h])
  | .error _, .ok _ => .isFalse (by simp)
  | .ok _, .error _ => .isFalse (by simp)

/-- Whitespace characters matched by the JavaScript regex class used
in the create route. -/
def isWs (c : Char) : Bool :=
  (c == ' ') || (c == '\t') || (c == '\n') || (c == '\r') || (c == '\x0b') || (c == '\x0c')

/-- Removal of every whitespace character, modelling the replace call
with a global whitespace regex in the create route. -/
def stripWS (s : String) : String :=
  String.mk (s.data.filter (fun c => !(isWs c)))

/-- JavaScript String.prototype.trim: drop leading and trailing
whitespace only. -/
def jsTrim (s : String) : String :=
  String.mk (((s.data.dropWhile isWs).reverse.dropWhile isWs).reverse)

/-- Truthiness of an optional string in JavaScript: absent and empty
strings are falsy. -/
def jsTruthyStr : Option String → Bool
  | none => false
  | some s => !(s == "")

/-- JavaScript or-chaining of two optional strings with final default
empty string, as in the requirementid destructuring of the create
route. -/
def jsOrStr (a b : Option String) : String :=
  if jsTruthyStr a then a.getD "" else if jsTruthyStr b then b.getD "" else ""

/-- JavaScript or-default for an optional string body field. -/
def jsOrStrD (a : Option String) (d : String) : String :=
  match a with
  | none => d
  | some s => if s = "" then d else s

/-- JavaScript or-default for an optional integer body field: absent,
null and zero all fall through to the default. -/
def jsOrInt (a : Option Int) (d : Int) : Int :=
  match a with
  | none => d
  | some n => if n = 0 then d else n

/-- Body of a POST to the create route, with both accepted spellings
of the id key and the optional remaining fields. -/
structure CreateBody where
  requirementid : Option String
  requirementId : Option String
  title : Option String
  client : Option String
  slots : Option Int
  status : Option String
  deriving DecidableEq

/-- Test whether some row already carries the given id, modelling the
SELECT used for the uniqueness check. -/
def dbHasId (db : List Requisition) (id : String) : Bool :=
  db.any (fun r => r.requirementid == id)

/-- Lookup of the row with the given primary key. -/
def dbFind (db : List Requisition) (id : String) : Option Requisition :=
  db.find? (fun r => r.requirementid == id)

/-- The create route: normalize the supplied id by stripping all
whitespace, reject empty ids and duplicates, otherwise insert a row
with defaulted fields and empty assignment columns, emit the created
event and return the new row. -/
def createRecord (db : List Requisition) (body : CreateBody) (now : Nat) :
    Except ApiError Requisition × List Requisition × List Event :=
  let rid := stripWS (jsOrStr body.requirementid body.requirementId)
  if rid = "" ∨ jsTrim rid = "" then
    (.error .InvalidId, db, [])
  else if dbHasId db rid = true then
    (.error .DuplicateId, db, [])
  else
    let newRow : Requisition :=
      { requirementid := rid
        title := jsOrStrD body.title ""
        client := jsOrStrD body.client ""
        slots := jsOrInt body.slots 1
        status := jsOrStrD body.status "Open"
        assigned_recruiters := []
        working_times := []
        createdat := now }
    (.ok newRow, db ++ [newRow], [Event.requisition_created newRow])

/-- Case-sensitive key membership in a request body object, modelling
the JavaScript in-operator on the fields object. -/
def hasKey (fields : List (String × JsValue)) (k : String) : Bool :=
  fields.any (fun kv => kv.1 == k)

/-- Lowercasing applied to body keys when building the SET clauses. -/
def toLowerStr (s : String) : String := String.mk (s.data.map Char.toLower)

/-- The column names produced for the SET clauses of the update. -/
def loweredKeys (fields : List (String × JsValue)) : List String :=
  fields.map (fun kv => toLowerStr kv.1)

/-- Assignment of one SET clause to a row: the column name must be one
of the table columns and the value must fit its type, otherwise the
statement fails. -/
def setColumn (r : Requisition) (col : String) (v : JsValue) : Option Requisition :=
  if col = "requirementid" then
    match v with | .str s => some { r with requirementid := s } | _ => none
  else if col = "title" then
    match v with | .str s => some { r with title := s } | _ => none
  else if col = "client" then
    match v with | .str s => some { r with client := s } | _ => none
  else if col = "slots" then
    match v with | .num n => some { r with slots := n } | _ => none
  else if col = "status" then
    match v with | .str s => some { r with status := s } | _ => none
  else if col = "assigned_recruiters" then
    match v with | .arr xs => some { r with assigned_recruiters := xs } | _ => none
  else if col = "working_times" then
    match v with | .obj m => some { r with working_times := m } | _ => none
  else if col = "createdat" then
    match v with | .num n => some { r with createdat := n.toNat } | _ => none
  else none

/-- Sequential application of the SET clauses built from the body, in
key order, each key lowercased. -/
def applyFields : Requisition → List (String × JsValue) → Option Requisition
  | r, [] => some r
  | r, kv :: rest =>
    match setColumn r (toLowerStr kv.1) kv.2 with
    | some r2 => applyFields r2 rest
    | none => none

/-- Response payload of the update route: either the no-changes
message for an empty body or the full updated row. -/
inductive PutResult where
  | noChanges
  | updated (r : Requisition)
  deriving DecidableEq

/-- The update route: look the row up, reject status or slots keys
while recruiters are assigned, short-circuit an empty body, then run
the UPDATE with the lowercased keys plus a refreshed createdat, emit
the updated event and return the full updated row. A duplicate SET
column, an assignment to createdat alongside the implicit NOW()
clause, an unknown column, or a primary-key conflict with another row
surfaces as a database error. -/
def putRecord (db : List Requisition) (id : String) (fields : List (String × JsValue))
    (now : Nat) : Except ApiError PutResult × List Requisition × List Event :=
  match dbFind db id with
  | none => (.error .NotFound, db, [])
  | some r =>
    if 0 < r.assigned_recruiters.length ∧
        (hasKey fields "status" = true ∨ hasKey fields "slots" = true) then
      (.error .Locked, db, [])
    else if fields = [] then
      (.ok .noChanges, db, [])
    else if ¬ ((loweredKeys fields).Nodup ∧ "createdat" ∉ loweredKeys fields) then
      (.error .SqlError, db, [])
    else
      match applyFields r fields with
      | none => (.error .SqlError, db, [])
      | some r2 =>
        let r3 : Requisition := { r2 with createdat := now }
        if r3.requirementid ≠ id ∧ dbHasId db r3.requirementid = true then
          (.error .SqlError, db, [])
        else
          (.ok (.updated r3),
           db.map (fun x => if x.requirementid == id then r3 else x),
           [Event.requisitions_updated r3])

/-- The delete route: remove the row, answer NotFound when nothing
matched, otherwise emit the deleted event and return the id. -/
def deleteRecord (db : List Requisition) (id : String) :
    Except ApiError String × List Requisition × List Event :=
  let remaining := db.filter (fun r => r.requirementid != id)
  if remaining.length = db.length then
    (.error .NotFound, db, [])
  else
    (.ok id, remaining, [Event.requisition_deleted id])

/-- One entry of the activeEditors map: the editing user, the focused
column and the owning socket id. -/
structure Editor where
  user : String
  fld : String
  socket : String
  deriving DecidableEq

/-- Insert-or-replace on an association list keyed by a string, as
Map.prototype.set behaves. -/
def setKey {α : Type} (m : List (String × α)) (k : String) (v : α) : List (String × α) :=
  if m.any (fun p => p.1 == k) then
    m.map (fun p => if p.1 == k then (k, v) else p)
  else m ++ [(k, v)]

/-- Deletion of a key from an association list, as Map.prototype.delete
behaves. -/
def delKey {α : Type} (m : List (String × α)) (k : String) : List (String × α) :=
  m.filter (fun p => p.1 != k)

/-- The editing_status socket handler: set or delete the presence
marker for the record and rebroadcast the payload to the other
clients. -/
def handleEditingStatus (editors : List (String × Editor)) (requirementid : String)
    (fld : String) (user : String) (isEditing : Bool) (sid : String) :
    List (String × Editor) × List Event :=
  let editors2 :=
    if isEditing then setKey editors requirementid { user := user, fld := fld, socket := sid }
    else delKey editors requirementid
  (editors2, [Event.editing_status requirementid (some fld) (some user) isEditing])

/-- The disconnect handler: walk the activeEditors map, delete every
marker owned by the departing socket and broadcast a cleared
editing_status event (user null, isEditing false) for each removed
record. -/
def disconnectCleanup (sid : String) :
    List (String × Editor) → List (String × Editor) × List Event
  | [] => ([], [])
  | (reqId, ed) :: rest =>
    let p := disconnectCleanup sid rest
    if ed.socket == sid then
      (p.1, Event.editing_status reqId (some ed.fld) none false :: p.2)
    else
      ((reqId, ed) :: p.1, p.2)

/-- Non-workability test from Table.jsx: status differs from Open or
slots is zero. -/
def isNonWorkable (r : Requisition) : Bool :=
  (r.status != "Open") || (r.slots == 0)

/-- Outcome of the client-side toggleWorking function: silently return
on a missing id, alert without any request when the user is assigned
elsewhere or the row is full, otherwise issue a PUT carrying the new
assignment columns. -/
inductive ToggleOutcome where
  | noop
  | alreadyWorkingAlert
  | capacityAlert
  | putReq (newAssigned : List String) (newWorkingTimes : List (String × Nat))
  deriving DecidableEq

/-- The client-side toggleWorking function from Table.jsx, computed
over the snapshot rows the client last fetched. -/
def toggleWorking (rows : List Requisition) (currentUser : String) (row : Requisition)
    (now : Nat) : ToggleOutcome :=
  if row.requirementid = "" then .noop
  else
    let assignedUsers := row.assigned_recruiters
    let isAssigned := assignedUsers.contains currentUser
    let alreadyWorking := rows.any (fun r =>
      r.assigned_recruiters.contains currentUser && (r.requirementid != row.requirementid))
    if (!isAssigned) && alreadyWorking then .alreadyWorkingAlert
    else if (!isAssigned) && decide (2 ≤ assignedUsers.length) then .capacityAlert
    else
      let newAssigned :=
        if isAssigned then assignedUsers.filter (fun u => u != currentUser)
        else assignedUsers ++ [currentUser]
      let newWT :=
        if isAssigned then delKey row.working_times currentUser
        else setKey row.working_times currentUser now
      .putReq newAssigned newWT

/-- A toggleWorking call issued against a fresh snapshot of the server
table, followed by the server PUT it triggers, giving the outcome, the
resulting table and the emitted events. -/
def toggleWorkingStep (db : List Requisition) (currentUser : String) (row : Requisition)
    (now : Nat) : ToggleOutcome × List Requisition × List Event :=
  match toggleWorking db currentUser row now with
  | .putReq a w =>
    let res := putRecord db row.requirementid
      [("assigned_recruiters", JsValue.arr a), ("working_times", JsValue.obj w)] now
    (.putReq a w, res.2.1, res.2.2)
  | o => (o, db, [])

/-- Status normalization from the mail poller. -/
def normalizeStatus (raw : String) : String :=
  let k := String.mk ((jsTrim raw).data.map Char.toUpper)
  if k = "OPEN" then "Open"
  else if k = "CLOSED" then "Closed"
  else if k = "ON_HOLD" then "On Hold"
  else if k = "FILLED" then "Filled"
  else if k = "CANCELLED" then "Cancelled"
  else "Open"

/-- The row transformation of the UPDATE statement issued by
checkEmails: on the matching row set the status and refresh createdat,
additionally clearing assigned_recruiters and working_times when the
new status is not Open. -/
def emailUpd (reqId newStatus : String) (now : Nat) (r : Requisition) : Requisition :=
  if r.requirementid == reqId then
    if newStatus != "Open" then
      { r with status := newStatus, assigned_recruiters := [],
               working_times := [], createdat := now }
    else
      { r with status := newStatus, createdat := now }
  else r

/-- The database update performed by checkEmails for one parsed mail:
skip unknown ids; for a status other than Open also clear
assigned_recruiters and working_times in the same UPDATE; emit the
updated event with the returned row. -/
def emailUpdate (db : List Requisition) (reqId : String) (newStatus : String)
    (now : Nat) : List Requisition × List Event :=
  match dbFind db reqId with
  | none => (db, [])
  | some _ =>
    let db2 := db.map (emailUpd reqId newStatus now)
    match dbFind db2 reqId with
    | some r2 => (db2, [Event.requisitions_updated r2])
    | none => (db2, [])

/-! Concrete states used to instantiate the theorems below. -/

/-- A record already carrying two assigned recruiters. -/
def c1Rec : Requisition :=
  { requirementid := "R1", title := "t", client := "c", slots := 3, status := "Open",
    assigned_recruiters := ["A", "B"], working_times := [("A", 1), ("B", 2)], createdat := 0 }

/-- A PUT body carrying a three-member assigned_recruiters array. -/
def c1Fields : List (String × JsValue) :=
  [("assigned_recruiters", JsValue.arr ["A", "B", "C"]),
   ("working_times", JsValue.obj [("A", 1), ("B", 2), ("C", 5)])]

/-- The row the server commits for that body. -/
def c1Out : Requisition :=
  { c1Rec with assigned_recruiters := ["A", "B", "C"],
               working_times := [("A", 1), ("B", 2), ("C", 5)], createdat := 5 }

/-- A workable row with one assigned recruiter. -/
def c1SnapRow : Requisition :=
  { requirementid := "R9", title := "", client := "", slots := 2, status := "Open",
    assigned_recruiters := ["A"], working_times := [("A", 1)], createdat := 0 }

/-- A one-row client snapshot. -/
def c1Rows : List Requisition := [c1SnapRow]

/-- Record REQ-1 with recruiter A assigned. -/
def c2R1 : Requisition :=
  { requirementid := "REQ-1", title := "", client := "", slots := 1, status := "Open",
    assigned_recruiters := ["A"], working_times := [("A", 1)], createdat := 0 }

/-- Record REQ-2 with nobody assigned. -/
def c2R2 : Requisition :=
  { requirementid := "REQ-2", title := "", client := "", slots := 1, status := "Open",
    assigned_recruiters := [], working_times := [], createdat := 0 }

/-- The two-record table for the move scenario. -/
def c2Db : List Requisition := [c2R1, c2R2]

/-- A record with a non-empty assignment set. -/
def c3Rec : Requisition :=
  { requirementid := "REQ-100", title := "Engineer", client := "Acme", slots := 2,
    status := "Open", assigned_recruiters := ["A"], working_times := [("A", 1)], createdat := 0 }

/-- The table holding that record. -/
def c3Db : List Requisition := [c3Rec]

/-- A patch touching the frozen status column. -/
def c3Fields : List (String × JsValue) := [("status", JsValue.str "Closed")]

/-- Create body supplying the id REQ1. -/
def c4BodyA : CreateBody :=
  { requirementid := some "REQ1", requirementId := none, title := none, client := none,
    slots := none, status := none }

/-- Create body supplying an id differing from REQ1 only by internal
whitespace. -/
def c4BodyB : CreateBody :=
  { requirementid := some "REQ 1", requirementId := none, title := none, client := none,
    slots := none, status := none }

/-- Create body supplying a whitespace-only id. -/
def c4BodyWs : CreateBody :=
  { requirementid := some "   ", requirementId := none, title := none, client := none,
    slots := none, status := none }

/-- The record created from c4BodyA on an empty table. -/
def c4Rec : Requisition :=
  { requirementid := "REQ1", title := "", client := "", slots := 1, status := "Open",
    assigned_recruiters := [], working_times := [], createdat := 1 }

/-- An unassigned record with title, client and status populated. -/
def c5Rec : Requisition :=
  { requirementid := "R5", title := "Engineer", client := "Acme", slots := 2,
    status := "Open", assigned_recruiters := [], working_times := [], createdat := 0 }

/-- The table holding that record. -/
def c5Db : List Requisition := [c5Rec]

/-- The patch writing only slots. -/
def c5Fields : List (String × JsValue) := [("slots", JsValue.num 5)]

/-- The row resulting from that patch at time 9. -/
def c5Out : Requisition := { c5Rec with slots := 5, createdat := 9 }

/-- A non-workable record (status Closed) with nobody assigned. -/
def c6Rec : Requisition :=
  { requirementid := "R6", title := "", client := "", slots := 1, status := "Closed",
    assigned_recruiters := [], working_times := [], createdat := 0 }

/-- A patch assigning recruiter A to the closed record. -/
def c6Fields : List (String × JsValue) :=
  [("assigned_recruiters", JsValue.arr ["A"]), ("working_times", JsValue.obj [("A", 4)])]

/-- The committed non-workable row with a recruiter assigned. -/
def c6Out : Requisition :=
  { c6Rec with assigned_recruiters := ["A"], working_times := [("A", 4)], createdat := 4 }

/-- A workable record with recruiter A assigned, for the email path. -/
def c6eRec : Requisition :=
  { requirementid := "R7", title := "", client := "", slots := 1, status := "Open",
    assigned_recruiters := ["A"], working_times := [("A", 2)], createdat := 0 }

/-- A presence marker owned by socket s1. -/
def c7Ed1 : Editor := { user := "A", fld := "title", socket := "s1" }

/-- A presence marker owned by socket s2. -/
def c7Ed2 : Editor := { user := "B", fld := "slots", socket := "s2" }

/-- A registry holding both markers. -/
def c7Editors : List (String × Editor) := [("R1", c7Ed1), ("R2", c7Ed2)]

/-- An existing record used to provoke a DuplicateId rejection. -/
def c8Rec : Requisition :=
  { requirementid := "R8", title := "", client := "", slots := 1, status := "Open",
    assigned_recruiters := [], working_times := [], createdat := 0 }

/-- The one-record table for the rejection scenarios. -/
def c8Db : List Requisition := [c8Rec]

/-- A create body that collides with the existing id. -/
def c8Body : CreateBody :=
  { requirementid := some "R8", requirementId := none, title := none, client := none,
    slots := none, status := none }

/-- A patch aimed at a missing id. -/
def c8Fields : List (String × JsValue) := [("title", JsValue.str "x")]

/-- A create body supplying only an id, everything else omitted. -/
def c9Body : CreateBody :=
  { requirementid := some "R9", requirementId := none, title := none, client := none,
    slots := none, status := none }

/-- A record with a non-empty assignment set for the case-sensitivity
scenario. -/
def c10Rec : Requisition :=
  { requirementid := "R10", title := "", client := "", slots := 1, status := "Open",
    assigned_recruiters := ["A"], working_times := [("A", 1)], createdat := 0 }

/-- The table holding that record. -/
def c10Db : List Requisition := [c10Rec]

/-! Helper lemmas about the embedding. -/

/-- A row returned by the primary-key lookup carries the looked-up id. -/
theorem dbFind_requirementid (db : List Requisition) (id : String) (r : Requisition)
    (h : dbFind db id = some r) : r.requirementid = id := by
  have h2 := List.find?_some h
  simpa using h2

/-! Claim C1. -/

/-- C1 counterexample: the server-side update route performs no
capacity re-validation at commit time. Against a table whose only
record already has two assigned recruiters, a patchRecord call whose
body carries a three-member assigned_recruiters array is committed,
so the persisted record has three assigned recruiters, refuting the
claim that the committed state always has at most two members per
record with capacity re-validated by the server. -/
theorem c1_counterexample :
    putRecord [c1Rec] "R1" c1Fields 5 =
      (.ok (.updated c1Out), [c1Out], [Event.requisitions_updated c1Out]) ∧
    2 < c1Out.assigned_recruiters.length :=
  ⟨by rfl, by decide⟩

/-- C1 (amended): the capacity and single-active-record checks run
only client-side, in toggleWorking, against the snapshot the client
last fetched. Whenever toggleWorking issues a PUT, the assignment
array it sends has at most two members (given the snapshot row had at
most two), and when it is adding the user the snapshot showed that
user on no other record. The server itself commits whatever
assignment array it receives. -/
theorem c1_client_capacity (rows : List Requisition) (u : String) (row : Requisition)
    (now : Nat) (hcap : row.assigned_recruiters.length ≤ 2)
    (a : List String) (w : List (String × Nat))
    (h : toggleWorking rows u row now = .putReq a w) :
    a.length ≤ 2 ∧
    (row.assigned_recruiters.contains u = false →
      ∀ r ∈ rows, r.requirementid ≠ row.requirementid →
        r.assigned_recruiters.contains u = false) := by
  unfold toggleWorking at h
  by_cases h0 : row.requirementid = ""
  · simp [h0] at h
  rw [if_neg h0] at h
  by_cases hA : row.assigned_recruiters.contains u = true
  · simp only [hA, Bool.not_true, Bool.false_and, if_false, Bool.false_eq_true, if_true] at h
    rw [ToggleOutcome.putReq.injEq] at h
    obtain ⟨ha, hw⟩ := h
    constructor
    · exact ha ▸ le_trans (List.length_filter_le _ _) hcap
    · intro hfalse
      rw [hA] at hfalse
      exact absurd hfalse (by simp)
  · have hA2 : row.assigned_recruiters.contains u = false := by
      simpa using hA
    simp only [hA2, Bool.not_false, Bool.true_and] at h
    by_cases h1 : rows.any (fun r =>
        r.assigned_recruiters.contains u && (r.requirementid != row.requirementid)) = true
    · rw [if_pos h1] at h
      exact absurd h (by simp)
    · rw [if_neg h1] at h
      by_cases h2 : decide (2 ≤ row.assigned_recruiters.length) = true
      · rw [if_pos h2] at h
        exact absurd h (by simp)
      · rw [if_neg h2] at h
        simp only [hA2, Bool.false_eq_true, if_false, ToggleOutcome.putReq.injEq] at h
        obtain ⟨ha, hw⟩ := h
        have hlen : ¬ (2 ≤ row.assigned_recruiters.length) := by
          simpa using h2
        constructor
        · rw [← ha]
          simp only [List.length_append, List.length_cons, List.length_nil]
          omega
        · intro _ r hr hne
          have hall : ∀ x ∈ rows, (x.assigned_recruiters.contains u &&
              (x.requirementid != row.requirementid)) = false := by
            simpa [List.any_eq_false] using h1
          have hf := hall r hr
          simpa [hne] using hf

/-- C1 amended witness: on a fresh one-record snapshot with one
assigned recruiter, a second recruiter toggling on yields a PUT with
exactly two members. -/
theorem c1_client_capacity_witness :
    toggleWorking c1Rows "B" c1SnapRow 5 = .putReq ["A", "B"] [("A", 1), ("B", 5)] ∧
    ([("A" : String), "B"]).length ≤ 2 := by
  have h : toggleWorking c1Rows "B" c1SnapRow 5 = .putReq ["A", "B"] [("A", 1), ("B", 5)] := by
    decide
  exact ⟨h, (c1_client_capacity c1Rows "B" c1SnapRow 5 (by decide) _ _ h).1⟩

/-! Claim C2. -/

/-- C2 counterexample: with recruiter A assigned to REQ-1, a
toggleWorking call on REQ-2 does not move the assignment. The client
guard fires an alert and issues no request, so the final state still
has A assigned to REQ-1 and not assigned to REQ-2, refuting the
claimed move semantics. -/
theorem c2_counterexample :
    toggleWorkingStep c2Db "A" c2R2 9 = (.alreadyWorkingAlert, c2Db, []) ∧
    (dbFind c2Db "REQ-1").map (fun r => r.assigned_recruiters) = some ["A"] ∧
    (dbFind c2Db "REQ-2").map (fun r => r.assigned_recruiters) = some [] := by
  decide

/-- C2 (amended): a toggleWorking call on a record the user is not
assigned to, while the snapshot shows the user assigned to some other
record, is rejected client-side with an alert and performs no
mutation at all: no PUT is issued, the table is unchanged and no
event is emitted. The user stays assigned to the old record only and
must first toggle it off. -/
theorem c2_no_move (db : List Requisition) (u : String) (row : Requisition) (now : Nat)
    (hid : row.requirementid ≠ "")
    (hnot : row.assigned_recruiters.contains u = false)
    (helse : ∃ r ∈ db, r.requirementid ≠ row.requirementid ∧
      r.assigned_recruiters.contains u = true) :
    toggleWorkingStep db u row now = (.alreadyWorkingAlert, db, []) := by
  have htw : toggleWorking db u row now = .alreadyWorkingAlert := by
    unfold toggleWorking
    rw [if_neg hid]
    have hany : db.any (fun r =>
        r.assigned_recruiters.contains u && (r.requirementid != row.requirementid)) = true := by
      obtain ⟨r, hr, hne, hc⟩ := helse
      refine List.any_eq_true.mpr ⟨r, hr, ?_⟩
      have hmem : u ∈ r.assigned_recruiters := by simpa using hc
      simp [hmem, hne]
    have hcond : ((!row.assigned_recruiters.contains u) &&
        db.any (fun r => r.assigned_recruiters.contains u &&
          (r.requirementid != row.requirementid))) = true := by
      rw [hnot, hany]
      rfl
    rw [if_pos hcond]
  unfold toggleWorkingStep
  rw [htw]

/-- C2 amended witness: the concrete REQ-1 and REQ-2 scenario run
through the amended theorem. -/
theorem c2_no_move_witness :
    toggleWorkingStep c2Db "A" c2R2 9 = (.alreadyWorkingAlert, c2Db, []) := by
  exact c2_no_move c2Db "A" c2R2 9 (by decide) (by decide)
    ⟨c2R1, by decide, by decide, by decide⟩

/-! Claim C3. -/

/-- C3: patching a record whose assignment set is non-empty with a
body containing the status or slots key fails with the Locked error
and has no effect: the table is returned unchanged (so no field is
written and createdat does not advance) and no event is emitted. -/
theorem c3_locked_patch_rejected (db : List Requisition) (id : String)
    (fields : List (String × JsValue)) (now : Nat) (r : Requisition)
    (hfind : dbFind db id = some r)
    (hassigned : r.assigned_recruiters ≠ [])
    (hkey : hasKey fields "status" = true ∨ hasKey fields "slots" = true) :
    putRecord db id fields now = (.error .Locked, db, []) := by
  unfold putRecord
  rw [hfind]
  simp only []
  rw [if_pos]
  exact ⟨List.length_pos.mpr hassigned, hkey⟩

/-- C3 witness: the concrete locked patch on REQ-100. -/
theorem c3_locked_patch_witness :
    putRecord c3Db "REQ-100" c3Fields 7 = (.error .Locked, c3Db, []) := by
  exact c3_locked_patch_rejected c3Db "REQ-100" c3Fields 7 c3Rec
    (by decide) (by decide) (Or.inl (by decide))

/-! Claim C4. -/

/-- Characters surviving the whitespace strip are not whitespace. -/
theorem stripWS_no_ws (s : String) : ∀ c ∈ (stripWS s).data, isWs c = false := by
  intro c hc
  have hc2 : c ∈ s.data.filter (fun c => !(isWs c)) := hc
  have h3 := List.of_mem_filter hc2
  simpa using h3

/-- Dropping a whitespace prefix from a whitespace-free list is the
identity. -/
theorem dropWhile_isWs_eq_self (l : List Char) (h : ∀ c ∈ l, isWs c = false) :
    l.dropWhile isWs = l := by
  cases l with
  | nil => rfl
  | cons a t =>
    rw [List.dropWhile_cons, h a (List.mem_cons_self a t)]
    simp

/-- Trimming after a full whitespace strip changes nothing. -/
theorem jsTrim_stripWS (s : String) : jsTrim (stripWS s) = stripWS s := by
  unfold jsTrim
  rw [dropWhile_isWs_eq_self _ (stripWS_no_ws s)]
  rw [dropWhile_isWs_eq_self _ (fun c hc => stripWS_no_ws s c (List.mem_reverse.mp hc))]
  rw [List.reverse_reverse]

/-- C4: the create route first strips every whitespace character from
the supplied identifier (taken from either accepted key spelling),
then fails with InvalidId exactly when the normalized identifier is
empty, fails with DuplicateId when the normalized identifier matches
an existing record, and otherwise stores the record under the
normalized identifier. -/
theorem c4_create_normalization (db : List Requisition) (body : CreateBody) (now : Nat) :
    (stripWS (jsOrStr body.requirementid body.requirementId) = "" →
      createRecord db body now = (.error .InvalidId, db, [])) ∧
    (stripWS (jsOrStr body.requirementid body.requirementId) ≠ "" →
      dbHasId db (stripWS (jsOrStr body.requirementid body.requirementId)) = true →
      createRecord db body now = (.error .DuplicateId, db, [])) ∧
    (∀ r db2 evs, createRecord db body now = (.ok r, db2, evs) →
      r.requirementid = stripWS (jsOrStr body.requirementid body.requirementId)) := by
  refine ⟨?_, ?_, ?_⟩
  · intro h
    unfold createRecord
    rw [if_pos (Or.inl h)]
  · intro hne hdup
    unfold createRecord
    rw [if_neg, if_pos hdup]
    rw [jsTrim_stripWS]
    simp [hne]
  · intro r db2 evs h
    unfold createRecord at h
    by_cases h1 : stripWS (jsOrStr body.requirementid body.requirementId) = "" ∨
        jsTrim (stripWS (jsOrStr body.requirementid body.requirementId)) = ""
    · rw [if_pos h1] at h
      exact absurd h (by simp)
    · rw [if_neg h1] at h
      by_cases h2 : dbHasId db (stripWS (jsOrStr body.requirementid body.requirementId)) = true
      · rw [if_pos h2] at h
        exact absurd h (by simp)
      · rw [if_neg h2] at h
        simp only [Prod.mk.injEq, Except.ok.injEq] at h
        rw [← h.1]

/-- C4 witness: creating REQ1 succeeds on an empty table, creating an
identifier differing only by internal whitespace is then rejected as a
duplicate, and a whitespace-only identifier is rejected as invalid. -/
theorem c4_create_normalization_witness :
    stripWS "REQ 1" = "REQ1" ∧
    createRecord [] c4BodyA 1 = (.ok c4Rec, [c4Rec], [Event.requisition_created c4Rec]) ∧
    createRecord [c4Rec] c4BodyB 2 = (.error .DuplicateId, [c4Rec], []) ∧
    createRecord [] c4BodyWs 3 = (.error .InvalidId, [], []) := by
  refine ⟨by decide, by decide, ?_, ?_⟩
  · exact (c4_create_normalization [c4Rec] c4BodyB 2).2.1 (by decide) (by decide)
  · exact (c4_create_normalization [] c4BodyWs 3).1 (by decide)

/-! Claim C9. -/

/-- C9: a successfully created record always starts with empty
assigned_recruiters and working_times; an omitted or zero slots value
is stored as one, an omitted title or client as the empty string, and
an omitted status as Open. -/
theorem c9_create_defaults (db : List Requisition) (body : CreateBody) (now : Nat)
    (r : Requisition) (db2 : List Requisition) (evs : List Event)
    (h : createRecord db body now = (.ok r, db2, evs)) :
    r.assigned_recruiters = [] ∧ r.working_times = [] ∧
    ((body.slots = none ∨ body.slots = some 0) → r.slots = 1) ∧
    (body.title = none → r.title = "") ∧
    (body.client = none → r.client = "") ∧
    (body.status = none → r.status = "Open") := by
  unfold createRecord at h
  by_cases h1 : stripWS (jsOrStr body.requirementid body.requirementId) = "" ∨
      jsTrim (stripWS (jsOrStr body.requirementid body.requirementId)) = ""
  · rw [if_pos h1] at h
    exact absurd h (by simp)
  · rw [if_neg h1] at h
    by_cases h2 : dbHasId db (stripWS (jsOrStr body.requirementid body.requirementId)) = true
    · rw [if_pos h2] at h
      exact absurd h (by simp)
    · rw [if_neg h2] at h
      simp only [Prod.mk.injEq, Except.ok.injEq] at h
      rw [← h.1]
      refine ⟨rfl, rfl, ?_, ?_, ?_, ?_⟩
      · rintro (hs | hs) <;> simp [hs, jsOrInt]
      · intro ht
        simp [ht, jsOrStrD]
      · intro ht
        simp [ht, jsOrStrD]
      · intro ht
        simp [ht, jsOrStrD]

/-- C9 witness: a body supplying only the id yields a record with
slots one, empty title and client, status Open and empty assignment
columns. -/
theorem c9_create_defaults_witness :
    (createRecord [] c9Body 1).1 =
      .ok { requirementid := "R9", title := "", client := "", slots := 1, status := "Open",
            assigned_recruiters := [], working_times := [], createdat := 1 } ∧
    ({ requirementid := "R9", title := "", client := "", slots := 1, status := "Open",
       assigned_recruiters := [], working_times := [], createdat := 1 } :
       Requisition).slots = 1 := by
  refine ⟨by decide, ?_⟩
  exact (c9_create_defaults [] c9Body 1
    { requirementid := "R9", title := "", client := "", slots := 1, status := "Open",
      assigned_recruiters := [], working_times := [], createdat := 1 }
    [{ requirementid := "R9", title := "", client := "", slots := 1, status := "Open",
       assigned_recruiters := [], working_times := [], createdat := 1 }]
    [Event.requisition_created
      { requirementid := "R9", title := "", client := "", slots := 1, status := "Open",
        assigned_recruiters := [], working_times := [], createdat := 1 }]
    (by decide)).2.2.1 (Or.inl rfl)

/-! Claim C8. -/

/-- C8: whenever the create, update or delete route answers with an
error, it does so synchronously and with no side effect at all: the
table is unchanged and no event of any kind is emitted. -/
theorem c8_no_broadcast_on_rejection (db : List Requisition) (body : CreateBody)
    (id : String) (fields : List (String × JsValue)) (now : Nat) (e e2 e3 : ApiError) :
    ((createRecord db body now).1 = .error e → (createRecord db body now).2 = (db, [])) ∧
    ((putRecord db id fields now).1 = .error e2 → (putRecord db id fields now).2 = (db, [])) ∧
    ((deleteRecord db id).1 = .error e3 → (deleteRecord db id).2 = (db, [])) := by
  refine ⟨?_, ?_, ?_⟩
  · unfold createRecord
    dsimp only
    split_ifs <;> intro h <;> first | rfl | exact absurd h (by simp)
  · unfold putRecord
    rcases hf : dbFind db id with - | r <;> dsimp only
    · intro h
      rfl
    · split_ifs with h1 h2 h3
      · intro h
        rfl
      · intro h
        exact absurd h (by simp)
      · rcases ha : applyFields r fields with - | r2 <;> dsimp only
        · intro h
          rfl
        · split_ifs with h4
          · intro h
            rfl
          · intro h
            exact absurd h (by simp)
      · intro h
        rfl
  · unfold deleteRecord
    dsimp only
    split_ifs <;> intro h <;> first | rfl | exact absurd h (by simp)

/-- C8 witness: a duplicate create, a patch of a missing id and a
delete of a missing id each leave the table unchanged and emit
nothing. -/
theorem c8_no_broadcast_witness :
    (createRecord c8Db c8Body 1).2 = (c8Db, []) ∧
    (putRecord c8Db "NOPE" c8Fields 1).2 = (c8Db, []) ∧
    (deleteRecord c8Db "NOPE").2 = (c8Db, []) := by
  obtain ⟨h1, h2, h3⟩ :=
    c8_no_broadcast_on_rejection c8Db c8Body "NOPE" c8Fields 1 .DuplicateId .NotFound .NotFound
  exact ⟨h1 (by decide), h2 (by decide), h3 (by decide)⟩

/-! Claim C7. -/

/-- C7: the disconnect handler removes every presence marker owned by
the departing socket (afterwards no registry entry references it),
broadcasts a presence-cleared editing_status event with user null and
isEditing false for each removed record, and keeps every marker owned
by other sockets. -/
theorem c7_disconnect_clears (editors : List (String × Editor)) (sid : String) :
    (∀ p ∈ (disconnectCleanup sid editors).1, p.2.socket ≠ sid) ∧
    (∀ p ∈ editors, p.2.socket = sid →
      Event.editing_status p.1 (some p.2.fld) none false ∈ (disconnectCleanup sid editors).2) ∧
    (∀ p ∈ editors, p.2.socket ≠ sid → p ∈ (disconnectCleanup sid editors).1) := by
  induction editors with
  | nil => simp [disconnectCleanup]
  | cons hd tl ih =>
    obtain ⟨reqId, ed⟩ := hd
    obtain ⟨ih1, ih2, ih3⟩ := ih
    by_cases hs : ed.socket = sid
    · have hb : (ed.socket == sid) = true := by simpa using hs
      refine ⟨?_, ?_, ?_⟩ <;> simp only [disconnectCleanup, hb, if_true]
      · exact ih1
      · intro p hp hps
        rcases List.mem_cons.mp hp with h | h
        · subst h
          exact List.mem_cons_self _ _
        · exact List.mem_cons_of_mem _ (ih2 p h hps)
      · intro p hp hps
        rcases List.mem_cons.mp hp with h | h
        · subst h
          exact absurd hs hps
        · exact ih3 p h hps
    · have hb : (ed.socket == sid) = false := by simpa using hs
      refine ⟨?_, ?_, ?_⟩ <;> simp only [disconnectCleanup, hb, Bool.false_eq_true, if_false]
      · intro p hp
        rcases List.mem_cons.mp hp with h | h
        · subst h
          exact hs
        · exact ih1 p h
      · intro p hp hps
        rcases List.mem_cons.mp hp with h | h
        · subst h
          exact absurd hps hs
        · exact ih2 p h hps
      · intro p hp hps
        rcases List.mem_cons.mp hp with h | h
        · subst h
          exact List.mem_cons_self _ _
        · exact List.mem_cons_of_mem _ (ih3 p h hps)

/-- C7 witness: with markers owned by sockets s1 and s2, disconnecting
s1 broadcasts the cleared event for its record and keeps the marker
owned by s2. -/
theorem c7_disconnect_witness :
    Event.editing_status "R1" (some "title") none false ∈ (disconnectCleanup "s1" c7Editors).2 ∧
    ("R2", c7Ed2) ∈ (disconnectCleanup "s1" c7Editors).1 := by
  obtain ⟨h1, h2, h3⟩ := c7_disconnect_clears c7Editors "s1"
  exact ⟨h2 ("R1", c7Ed1) (by decide) (by decide), h3 ("R2", c7Ed2) (by decide) (by decide)⟩

/-! Claim C5. -/

/-- A single SET clause changes only its own column. -/
theorem setColumn_frame (r : Requisition) (col : String) (v : JsValue) (r2 : Requisition)
    (h : setColumn r col v = some r2) :
    (col ≠ "requirementid" → r2.requirementid = r.requirementid) ∧
    (col ≠ "title" → r2.title = r.title) ∧
    (col ≠ "client" → r2.client = r.client) ∧
    (col ≠ "slots" → r2.slots = r.slots) ∧
    (col ≠ "status" → r2.status = r.status) ∧
    (col ≠ "assigned_recruiters" → r2.assigned_recruiters = r.assigned_recruiters) ∧
    (col ≠ "working_times" → r2.working_times = r.working_times) := by
  unfold setColumn at h
  split_ifs at h <;> cases v <;>
    first
    | exact Option.noConfusion h
    | (injection h with h2; subst h2; simp_all)

/-- Applying a list of SET clauses leaves every column whose name is
not among the lowercased keys at its prior value. -/
theorem applyFields_frame (fields : List (String × JsValue)) :
    ∀ r r2 : Requisition, applyFields r fields = some r2 →
    ("requirementid" ∉ loweredKeys fields → r2.requirementid = r.requirementid) ∧
    ("title" ∉ loweredKeys fields → r2.title = r.title) ∧
    ("client" ∉ loweredKeys fields → r2.client = r.client) ∧
    ("slots" ∉ loweredKeys fields → r2.slots = r.slots) ∧
    ("status" ∉ loweredKeys fields → r2.status = r.status) ∧
    ("assigned_recruiters" ∉ loweredKeys fields →
      r2.assigned_recruiters = r.assigned_recruiters) ∧
    ("working_times" ∉ loweredKeys fields → r2.working_times = r.working_times) := by
  induction fields with
  | nil =>
    intro r r2 h
    unfold applyFields at h
    injection h with h1
    subst h1
    simp
  | cons kv rest ih =>
    intro r r2 h
    unfold applyFields at h
    rcases hs : setColumn r (toLowerStr kv.1) kv.2 with - | rmid
    · rw [hs] at h
      exact absurd h (by simp)
    · rw [hs] at h
      obtain ⟨f1, f2, f3, f4, f5, f6, f7⟩ := setColumn_frame r (toLowerStr kv.1) kv.2 rmid hs
      obtain ⟨g1, g2, g3, g4, g5, g6, g7⟩ := ih rmid r2 h
      refine ⟨?_, ?_, ?_, ?_, ?_, ?_, ?_⟩ <;>
        intro hnot <;>
        simp only [loweredKeys, List.map_cons, List.mem_cons, not_or] at hnot
      · exact (g1 hnot.2).trans (f1 (Ne.symm hnot.1))
      · exact (g2 hnot.2).trans (f2 (Ne.symm hnot.1))
      · exact (g3 hnot.2).trans (f3 (Ne.symm hnot.1))
      · exact (g4 hnot.2).trans (f4 (Ne.symm hnot.1))
      · exact (g5 hnot.2).trans (f5 (Ne.symm hnot.1))
      · exact (g6 hnot.2).trans (f6 (Ne.symm hnot.1))
      · exact (g7 hnot.2).trans (f7 (Ne.symm hnot.1))

/-- C5: a successful patch overwrites only the columns named (after
lowercasing) by the supplied keys: every column not named keeps its
prior value, createdat is refreshed to the current time, the emitted
event and response both carry the full post-patch record, and the
committed table replaces exactly the patched row. -/
theorem c5_patch_frame (db : List Requisition) (id : String)
    (fields : List (String × JsValue)) (now : Nat) (r r2 : Requisition)
    (db2 : List Requisition) (evs : List Event)
    (hfind : dbFind db id = some r)
    (hput : putRecord db id fields now = (.ok (.updated r2), db2, evs)) :
    ("requirementid" ∉ loweredKeys fields → r2.requirementid = r.requirementid) ∧
    ("title" ∉ loweredKeys fields → r2.title = r.title) ∧
    ("client" ∉ loweredKeys fields → r2.client = r.client) ∧
    ("slots" ∉ loweredKeys fields → r2.slots = r.slots) ∧
    ("status" ∉ loweredKeys fields → r2.status = r.status) ∧
    ("assigned_recruiters" ∉ loweredKeys fields →
      r2.assigned_recruiters = r.assigned_recruiters) ∧
    ("working_times" ∉ loweredKeys fields → r2.working_times = r.working_times) ∧
    r2.createdat = now ∧
    evs = [Event.requisitions_updated r2] ∧
    db2 = db.map (fun x => if x.requirementid == id then r2 else x) := by
  unfold putRecord at hput
  rw [hfind] at hput
  dsimp only at hput
  split_ifs at hput with h1 h2 h3
  · exact absurd hput (by simp)
  · exact absurd hput (by simp)
  · rcases ha : applyFields r fields with - | rmid
    · rw [ha] at hput
      exact absurd hput (by simp)
    · rw [ha] at hput
      dsimp only at hput
      split_ifs at hput with h4
      · exact absurd hput (by simp)
      · simp only [Prod.mk.injEq, Except.ok.injEq, PutResult.updated.injEq] at hput
        obtain ⟨hr2, hdb2, hevs⟩ := hput
        subst hr2
        obtain ⟨p1, p2, p3, p4, p5, p6, p7⟩ := applyFields_frame fields r rmid ha
        exact ⟨p1, p2, p3, p4, p5, p6, p7, rfl, hevs.symm, hdb2.symm⟩
  · exact absurd hput (by simp)

/-- C5 witness: patching only slots leaves title, client and status at
their prior values and answers with the full post-patch record. -/
theorem c5_patch_frame_witness :
    putRecord c5Db "R5" c5Fields 9 =
      (.ok (.updated c5Out), [c5Out], [Event.requisitions_updated c5Out]) ∧
    c5Out.title = c5Rec.title ∧ c5Out.client = c5Rec.client ∧
    c5Out.status = c5Rec.status ∧ c5Out.slots = 5 := by
  have hfind : dbFind c5Db "R5" = some c5Rec := by decide
  have hput : putRecord c5Db "R5" c5Fields 9 =
      (.ok (.updated c5Out), [c5Out], [Event.requisitions_updated c5Out]) := by decide
  have h := c5_patch_frame c5Db "R5" c5Fields 9 c5Rec c5Out [c5Out]
    [Event.requisitions_updated c5Out] hfind hput
  exact ⟨hput, h.2.1 (by decide), h.2.2.1 (by decide), h.2.2.2.2.1 (by decide), by decide⟩

/-! Claim C6. -/

/-- C6 counterexample: the update route enforces nothing about
workability. Patching assigned_recruiters onto a record whose status
is Closed commits a record that is simultaneously non-workable and
has a non-empty assignment set, refuting the claimed invariant
preservation by every operation. -/
theorem c6_counterexample :
    putRecord [c6Rec] "R6" c6Fields 4 =
      (.ok (.updated c6Out), [c6Out], [Event.requisitions_updated c6Out]) ∧
    isNonWorkable c6Out = true ∧ c6Out.assigned_recruiters ≠ [] := by
  refine ⟨by rfl, by decide, by decide⟩

/-- The email-driven row transformation never changes the key. -/
theorem emailUpd_requirementid (reqId newStatus : String) (now : Nat) (r : Requisition) :
    (emailUpd reqId newStatus now r).requirementid = r.requirementid := by
  unfold emailUpd
  split_ifs <;> rfl

/-- Looking a key up after mapping a key-preserving transformation
finds the transformed row. -/
theorem dbFind_map (db : List Requisition) (id : String) (f : Requisition → Requisition)
    (hf : ∀ x, (f x).requirementid = x.requirementid) :
    dbFind (db.map f) id = (dbFind db id).map f := by
  induction db with
  | nil => rfl
  | cons a t ih =>
    unfold dbFind
    rw [List.map_cons]
    by_cases hb : (a.requirementid == id) = true
    · rw [List.find?_cons_of_pos, List.find?_cons_of_pos]
      · rfl
      · exact hb
      · rw [hf a]
        exact hb
    · have hb2 : (a.requirementid == id) = false := by simpa using hb
      rw [List.find?_cons_of_neg, List.find?_cons_of_neg]
      · exact ih
      · simpa using hb2
      · rw [hf a]
        simpa using hb2

/-- C6 (amended): only the mail-driven status update enforces the
workability transition: when checkEmails sets a status other than
Open, the same UPDATE clears assigned_recruiters and working_times,
so the record it commits is never non-workable with recruiters still
assigned. The update route itself does not preserve the invariant. -/
theorem c6_email_transition_clears (db : List Requisition) (reqId newStatus : String)
    (now : Nat) (r : Requisition)
    (hfind : dbFind db reqId = some r) (hns : newStatus ≠ "Open") :
    dbFind (emailUpdate db reqId newStatus now).1 reqId =
      some { r with status := newStatus, assigned_recruiters := [], working_times := [],
                    createdat := now } := by
  have hid : r.requirementid = reqId := dbFind_requirementid db reqId r hfind
  have hmap := dbFind_map db reqId (emailUpd reqId newStatus now)
    (emailUpd_requirementid reqId newStatus now)
  unfold emailUpdate
  rw [hfind]
  dsimp only
  have hbid : (r.requirementid == reqId) = true := by simpa using hid
  have hbns : (newStatus != "Open") = true := by simpa using hns
  rcases h2 : dbFind (db.map (emailUpd reqId newStatus now)) reqId with - | r2 <;>
    dsimp only <;>
    rw [hmap, hfind] <;>
    simp only [Option.map_some'] <;>
    unfold emailUpd <;>
    rw [if_pos hbid, if_pos hbns]

/-- C6 amended witness: a mail moving an assigned record to Closed
commits it with an empty assignment set. -/
theorem c6_email_transition_witness :
    dbFind (emailUpdate [c6eRec] "R7" "Closed" 7).1 "R7" =
      some { c6eRec with status := "Closed", assigned_recruiters := [], working_times := [],
                         createdat := 7 } := by
  exact c6_email_transition_clears [c6eRec] "R7" "Closed" 7 c6eRec (by decide) (by decide)

/-! Claim C10. -/

/-- C10: the frozen-field check matches the status and slots keys
case-sensitively while column application lowercases keys, so on a
record with assigned recruiters a patch whose key lowercases to
status, or to slots, without being that exact lowercase string is not
rejected with Locked: it commits, overwriting the corresponding
column and emitting the update event. -/
theorem c10_case_mismatch_bypasses_freeze (db : List Requisition) (id : String)
    (r : Requisition) (k s : String) (n : Int) (now : Nat)
    (hfind : dbFind db id = some r)
    (hassigned : r.assigned_recruiters ≠ []) :
    (toLowerStr k = "status" → k ≠ "status" →
      putRecord db id [(k, JsValue.str s)] now =
        (.ok (.updated { r with status := s, createdat := now }),
         db.map (fun x => if x.requirementid == id then
           { r with status := s, createdat := now } else x),
         [Event.requisitions_updated { r with status := s, createdat := now }])) ∧
    (toLowerStr k = "slots" → k ≠ "slots" →
      putRecord db id [(k, JsValue.num n)] now =
        (.ok (.updated { r with slots := n, createdat := now }),
         db.map (fun x => if x.requirementid == id then
           { r with slots := n, createdat := now } else x),
         [Event.requisitions_updated { r with slots := n, createdat := now }])) := by
  have hid : r.requirementid = id := dbFind_requirementid db id r hfind
  constructor
  · intro hk hne
    have hkslots : k ≠ "slots" := by
      intro hcon
      rw [hcon] at hk
      exact absurd hk (by decide)
    have hnotLocked : ¬(0 < r.assigned_recruiters.length ∧
        (hasKey [(k, JsValue.str s)] "status" = true ∨
          hasKey [(k, JsValue.str s)] "slots" = true)) := by
      rintro ⟨-, hor | hor⟩ <;> simp [hasKey, hne, hkslots] at hor
    have hnotEmpty : [(k, JsValue.str s)] ≠ ([] : List (String × JsValue)) := by simp
    have hnodup : ¬¬((loweredKeys [(k, JsValue.str s)]).Nodup ∧
        "createdat" ∉ loweredKeys [(k, JsValue.str s)]) := by
      intro hcon
      apply hcon
      refine ⟨?_, ?_⟩
      · simp [loweredKeys]
      · simp [loweredKeys, hk]
    have happ : applyFields r [(k, JsValue.str s)] = some { r with status := s } := by
      unfold applyFields
      rw [hk]
      simp [applyFields, setColumn]
    have hpk : ¬(({ r with status := s, createdat := now } :
        Requisition).requirementid ≠ id ∧
        dbHasId db ({ r with status := s, createdat := now } :
          Requisition).requirementid = true) := by
      rintro ⟨hcon, -⟩
      exact hcon hid
    unfold putRecord
    rw [hfind]
    dsimp only
    rw [if_neg hnotLocked, if_neg hnotEmpty, if_neg hnodup, happ]
    dsimp only
    rw [if_neg hpk]
  · intro hk hne
    have hkstatus : k ≠ "status" := by
      intro hcon
      rw [hcon] at hk
      exact absurd hk (by decide)
    have hnotLocked : ¬(0 < r.assigned_recruiters.length ∧
        (hasKey [(k, JsValue.num n)] "status" = true ∨
          hasKey [(k, JsValue.num n)] "slots" = true)) := by
      rintro ⟨-, hor | hor⟩ <;> simp [hasKey, hne, hkstatus] at hor
    have hnotEmpty : [(k, JsValue.num n)] ≠ ([] : List (String × JsValue)) := by simp
    have hnodup : ¬¬((loweredKeys [(k, JsValue.num n)]).Nodup ∧
        "createdat" ∉ loweredKeys [(k, JsValue.num n)]) := by
      intro hcon
      apply hcon
      refine ⟨?_, ?_⟩
      · simp [loweredKeys]
      · simp [loweredKeys, hk]
    have happ : applyFields r [(k, JsValue.num n)] = some { r with slots := n } := by
      unfold applyFields
      rw [hk]
      simp [applyFields, setColumn]
    have hpk : ¬(({ r with slots := n, createdat := now } :
        Requisition).requirementid ≠ id ∧
        dbHasId db ({ r with slots := n, createdat := now } :
          Requisition).requirementid = true) := by
      rintro ⟨hcon, -⟩
      exact hcon hid
    unfold putRecord
    rw [hfind]
    dsimp only
    rw [if_neg hnotLocked, if_neg hnotEmpty, if_neg hnodup, happ]
    dsimp only
    rw [if_neg hpk]

/-- C10 witness: with a recruiter assigned, a patch supplying the
Status key with capital S commits a status overwrite instead of
failing Locked, and a patch supplying the Slots key with capital S
likewise commits a slots overwrite, here to zero. -/
theorem c10_case_mismatch_witness :
    putRecord c10Db "R10" [("Status", JsValue.str "Closed")] 3 =
      (.ok (.updated { c10Rec with status := "Closed", createdat := 3 }),
       [{ c10Rec with status := "Closed", createdat := 3 }],
       [Event.requisitions_updated { c10Rec with status := "Closed", createdat := 3 }]) ∧
    putRecord c10Db "R10" [("Slots", JsValue.num 0)] 3 =
      (.ok (.updated { c10Rec with slots := 0, createdat := 3 }),
       [{ c10Rec with slots := 0, createdat := 3 }],
       [Event.requisitions_updated { c10Rec with slots := 0, createdat := 3 }]) ∧
    c10Rec.assigned_recruiters ≠ [] := by
  have h1 := (c10_case_mismatch_bypasses_freeze c10Db "R10" c10Rec "Status" "Closed" 0 3
    (by decide) (by decide)).1 (by decide) (by decide)
  have h2 := (c10_case_mismatch_bypasses_freeze c10Db "R10" c10Rec "Slots" "" 0 3
    (by decide) (by decide)).2 (by decide) (by decide)
  exact ⟨h1.trans (by decide), h2.trans (by decide), by decide⟩

end HybridApp
